import Mathlib

/- Verification of the batch asset-conversion pipeline implemented in
   objathor/asset_conversion/pipeline_to_thor.py.

   The pipeline code is shallowly embedded: external collaborators
   (the blender subprocess, the collider generator, the THOR controller)
   are modelled by oracle values describing their observable behavior,
   and the orchestration logic (ledger updates, stage gating, report
   writing, controller teardown) is translated directly from the source.
   Floating point numerics of the rotation optimizer are modelled over ℝ. -/

namespace Objathor

/-! Failure-reason constants (pipeline_to_thor.py lines 43-49). -/

def BLENDER_PROCESS_FAIL : String := "blender_process_fail"

def BLENDER_PROCESS_TIMEOUT_FAIL : String := "blender_process_timeout_fail"

def IMAGE_COMPRESS_FAIL : String := "png_to_jpg_compression_fail"

def GENERATE_COLLIDERS_FAIL : String := "vhacd_generate_colliders_fail"

def THOR_CREATE_ASSET_FAIL : String := "thor_create_asset_fail"

def THOR_VIEW_ASSET_FAIL : String := "thor_view_asset_in_thor_fail"

def THOR_PROCESS_FAILURE : String := "thor_process_fail"

/-- Marker string checked at line 185: the python expression
`"Progress: 100.00%" in out`. -/
def MEMORY_LEAK_MARKER : String := "Progress: 100.00%"

/-- Decides whether the character list given first occurs at the start of the
character list given second (helper for python substring membership). -/
def startsWithChars : List Char → List Char → Bool
  | [], _ => true
  | _ :: _, [] => false
  | p :: ps, c :: cs => p == c && startsWithChars ps cs

/-- Decides whether the first character list occurs anywhere inside the
second character list. -/
def hasSubstrChars (pat : List Char) : List Char → Bool
  | [] => startsWithChars pat []
  | c :: cs => startsWithChars pat (c :: cs) || hasSubstrChars pat cs

/-- Python substring membership test `pat in s`. -/
def strContains (s pat : String) : Bool := hasSubstrChars pat.toList s.toList

/-! The failure ledger.  In the python code `failed_objects` is an
`OrderedDictWithDefault(dict)`: a mapping uid → dict that auto-vivifies an
empty per-asset dict the first time a uid is touched.  Per-asset dicts
are modelled as insertion-ordered association lists, as is the ledger. -/

abbrev Entry := List (String × String)

abbrev Ledger := List (String × Entry)

/-- Python `d[k] = v` on an insertion-ordered dict: overwrite in place when
the key exists, append otherwise. -/
def setKey (e : Entry) (k v : String) : Entry :=
  if e.any (fun p => p.1 == k) then
    e.map (fun p => if p.1 == k then (p.1, v) else p)
  else e ++ [(k, v)]

/-- Python `e.get(k)` on a per-asset entry. -/
def lookupKey (e : Entry) (k : String) : Option String :=
  (e.find? (fun p => p.1 == k)).map Prod.snd

/-- Python `failed_objects[uid][k] = v`: auto-vivify the per-asset dict if
absent, then set the key. -/
def ledgerSet (L : Ledger) (uid k v : String) : Ledger :=
  if L.any (fun p => p.1 == uid) then
    L.map (fun p => if p.1 == uid then (p.1, setKey p.2 k v) else p)
  else L ++ [(uid, setKey [] k v)]

/-- Python `failed_objects[uid] = e`: replace the whole per-asset dict. -/
def ledgerReplace (L : Ledger) (uid : String) (e : Entry) : Ledger :=
  if L.any (fun p => p.1 == uid) then
    L.map (fun p => if p.1 == uid then (p.1, e) else p)
  else L ++ [(uid, e)]

/-- Lookup of the per-asset entry for a uid, `none` when the uid is absent. -/
def ledgerGet (L : Ledger) (uid : String) : Option Entry :=
  (L.find? (fun p => p.1 == uid)).map Prod.snd

/-- Serialization of one per-asset entry, modelling `json.dumps`. -/
def serializeEntry (e : Entry) : String :=
  "\x7b" ++ String.intercalate ", "
    (e.map (fun p => "\"" ++ p.1 ++ "\": \"" ++ p.2 ++ "\"")) ++ "\x7d"

/-- Serialization of the whole ledger, modelling `json.dumps(failed_objects)`
at line 621. -/
def serializeLedger (L : Ledger) : String :=
  "\x7b" ++ String.intercalate ", "
    (L.map (fun p => "\"" ++ p.1 ++ "\": " ++ serializeEntry p.2)) ++ "\x7d"

/-! Conversion stage: glb_to_thor (lines 79-269). -/

/-- Observable behavior of the blender subprocess launched at lines 140-147:
it either runs to completion with an exit code and captured output, hits the
timeout (`subprocess.TimeoutExpired`), or raises some other exception
(with or without a `returncode` attribute).  The trace arguments model the
strings produced by `traceback.format_exc()`. -/
inductive BlenderOutcome
  | exited (code : Int) (out : String) (cpeTrace : String)
  | timedOut
  | raisedWithCode (code : Int) (output : String) (trace : String)
  | raisedNoCode (trace : String)

/-- Oracle describing one conversion attempt: the subprocess outcome, whether
the side-artifact `{uid}.obj` exists afterwards (line 177), and whether the
texture-compression / rotation / save block at lines 197-267 raises
(`some trace`) or succeeds (`none`). -/
structure ConvBehavior where
  outcome : BlenderOutcome
  objExists : Bool
  postError : Option String

/-- Net effect of the try/except around Popen/communicate (lines 139-172):
the final `result_code`, the final `out` string, and whether the timeout
branch was taken (in which case the process was killed at line 154). -/
def afterPopenTry (b : BlenderOutcome) (command : String) : Int × String × Bool :=
  match b with
  | .exited c o tr =>
    if c = 0 then (0, o, false) else (c, o ++ ", Exception: " ++ tr, false)
  | .timedOut => (-1, "Command timed out, command: " ++ command, true)
  | .raisedWithCode c output tr => (c, output ++ "\n" ++ tr, false)
  | .raisedNoCode tr => (-1, "Blender process error: " ++ tr, false)

/-- Result of the conversion stage: the returned success flag, the updated
ledger, and whether `process.kill()` was invoked. -/
structure ConvResult where
  success : Bool
  ledger : Ledger
  killed : Bool

/-- Embedding of glb_to_thor (lines 79-269) after the subprocess ran.
Classification (lines 174-195): success requires exit code 0 and the .obj
side-artifact; a non-success outcome is rescued when the memory-leak marker
occurs in the captured output; otherwise the failure is recorded in the
ledger and the function returns False.  The compress/rotate/save block
(lines 197-267) then runs on every success path and converts its own
exceptions into an IMAGE_COMPRESS_FAIL entry. -/
def glb_to_thor (uid command : String) (b : ConvBehavior) (L : Ledger) : ConvResult :=
  let rc := (afterPopenTry b.outcome command).1
  let out := (afterPopenTry b.outcome command).2.1
  let timeoutHit := (afterPopenTry b.outcome command).2.2
  let success := rc == 0 && b.objExists
  if success || strContains out MEMORY_LEAK_MARKER then
    match b.postError with
    | none => ⟨true, L, timeoutHit⟩
    | some tr =>
      let L1 := ledgerSet L uid "failure_reason" IMAGE_COMPRESS_FAIL
      let L2 := ledgerSet L1 uid "exception" tr
      ⟨false, L2, timeoutHit⟩
  else
    let L1 :=
      if timeoutHit then ledgerSet L uid "blender_output" BLENDER_PROCESS_TIMEOUT_FAIL
      else ledgerSet L uid "failure_reason" BLENDER_PROCESS_FAIL
    let L2 := ledgerSet L1 uid "blender_output" out
    ⟨false, L2, timeoutHit⟩

/-! Collider stage: obj_to_colliders (lines 333-363). -/

/-- Observable behavior of `generate_colliders`: either it returns with a
per-asset failed flag and info payload, or it raises. -/
inductive ColliderBehavior
  | returned (failed : Bool) (info : String)
  | raised (trace : String)

/-- Embedding of obj_to_colliders (lines 333-363). -/
def obj_to_colliders (uid : String) (b : ColliderBehavior) (L : Ledger) :
    Bool × Ledger :=
  match b with
  | .returned failed info =>
    if failed then
      let L1 := ledgerSet L uid "failure_reason" GENERATE_COLLIDERS_FAIL
      let L2 := ledgerSet L1 uid "generate_colliders_info" info
      (false, L2)
    else (true, L)
  | .raised tr =>
    let L1 := ledgerSet L uid "failure_reason" GENERATE_COLLIDERS_FAIL
    let L2 := ledgerSet L1 uid "generate_colliders_exception" tr
    (false, L2)

/-! Validation stage: validate_in_thor (lines 366-433). -/

/-- Observable behavior of the runtime-validation collaborator.
`resetRaised` models an exception from `controller.reset` or
`controller.step` at lines 379-380, which sit BEFORE the try block that
starts at line 383 and therefore escape validate_in_thor uncaught.  The
remaining cases are inside the try: asset creation fails, rendering fails
(only relevant when images are taken), everything succeeds, or an exception
is raised and caught at line 425. -/
inductive ValidateBehavior
  | resetRaised (trace : String)
  | createFailed (lastAction errorMessage : String)
  | viewFailed (lastAction errorMessage : String)
  | allOk
  | raised (trace lastAction errorMessage : String)

/-- Whether the behavior is the uncaught reset/step exception. -/
def ValidateBehavior.isResetRaised : ValidateBehavior → Bool
  | .resetRaised _ => true
  | _ => false

/-- Embedding of validate_in_thor (lines 366-433).  An exception from the
reset/step calls at lines 379-380 propagates to the caller (`Except.error`);
every failure inside the try block is converted into a ledger entry, where
the whole per-asset entry is replaced (`failed_objects[asset_name] = ...`). -/
def validate_in_thor (assetName : String) (skipImages : Bool)
    (b : ValidateBehavior) (L : Ledger) : Except String (Bool × Ledger) :=
  match b with
  | .resetRaised tr => .error tr
  | .createFailed la em =>
    .ok (false, ledgerReplace L assetName
      [("failure_reason", THOR_CREATE_ASSET_FAIL), ("lastAction", la),
       ("errorMessage", em)])
  | .viewFailed la em =>
    if skipImages then .ok (true, L)
    else
      .ok (false, ledgerReplace L assetName
        [("failure_reason", THOR_VIEW_ASSET_FAIL), ("lastAction", la),
         ("errorMessage", em)])
  | .allOk => .ok (true, L)
  | .raised tr la em =>
    .ok (false, ledgerReplace L assetName
      [("failure_reason", THOR_PROCESS_FAILURE), ("exception", tr),
       ("lastAction", la), ("errorMessage", em)])

/-! The sequencer: optimize_assets_for_thor (lines 436-640). -/

/-- Pipeline stages as invoked by the sequencer loop. -/
inductive Stage
  | conversion
  | colliders
  | save
  | validate
deriving DecidableEq

/-- Oracle for one asset of a batch: its uid, the blender command built for
it, whether annotation resolution at lines 479-491 raises RuntimeError,
and the behavior of each collaborator for this asset.  `saveError` models an
exception inside the saving block at lines 527-567, `ctrlCreateError` an
exception from creating the controller at lines 575-588 (relevant only when
no controller exists yet), `visActionsError` an exception from
add_visualize_thor_actions at lines 607-610, and `metadataWriteError` an
exception from the metadata json.dump at lines 612-614 — none of these four
sites is wrapped in any per-asset try, so each raises past the loop body. -/
structure AssetBehavior where
  uid : String
  command : String
  annotMissing : Bool
  conv : ConvBehavior
  colliders : ColliderBehavior
  saveError : Option String
  validate : ValidateBehavior
  ctrlCreateError : Option String
  visActionsError : Option String
  metadataWriteError : Option String

/-- Per-run configuration flags of optimize_assets_for_thor. -/
structure RunConfig where
  skipConversion : Bool
  skipColliders : Bool
  skipThorMetadata : Bool
  skipThorRender : Bool
  reportConfigured : Bool
  givenController : Bool
  addVisualizeThorActions : Bool

/-- State threaded through the per-asset loop: the ledger, the trace of
stage invocations, whether a controller object currently exists, and whether
an exception escaped to the outer bare `except` (line 631). -/
structure LoopState where
  ledger : Ledger
  events : List (String × Stage)
  ctrl : Bool
  fatal : Bool

/-- Conversion block of the loop body (lines 495-510): skipped when the
skip flag is set (success stays True), otherwise glb_to_thor is invoked. -/
def stageConv (cfg : RunConfig) (a : AssetBehavior) (st : LoopState) :
    Bool × LoopState :=
  if cfg.skipConversion then (true, st)
  else
    let r := glb_to_thor a.uid a.command a.conv st.ledger
    (r.success,
     { st with ledger := r.ledger,
               events := st.events ++ [(a.uid, Stage.conversion)] })

/-- Collider block of the loop body (lines 512-525): gated on prior success
and the skip flag. -/
def stageColl (cfg : RunConfig) (a : AssetBehavior) (s : Bool × LoopState) :
    Bool × LoopState :=
  if s.1 && !cfg.skipColliders then
    let r := obj_to_colliders a.uid a.colliders s.2.ledger
    (r.1,
     { s.2 with ledger := r.2,
                events := s.2.events ++ [(a.uid, Stage.colliders)] })
  else s

/-- Save/compress block of the loop body (lines 527-567): gated on success
and on neither conversion nor colliders being skipped.  This block is not
wrapped in a per-asset try, so an exception here is fatal to the batch. -/
def stageSave (cfg : RunConfig) (a : AssetBehavior) (s : Bool × LoopState) :
    Bool × LoopState :=
  if s.1 && !cfg.skipConversion && !cfg.skipColliders then
    let st2 := { s.2 with events := s.2.events ++ [(a.uid, Stage.save)] }
    if a.saveError.isSome then (s.1, { st2 with fatal := true }) else (s.1, st2)
  else s

/-- Validation block of the loop body (lines 569-619): runs only when no
exception is escaping, success holds, and metadata is not skipped.  None of
this block is wrapped in a per-asset try, so four sites raise past the loop
body (fatal): creating the controller when none exists yet (lines 575-588),
the reset/step exception escaping validate_in_thor (lines 379-380), the
add_visualize_thor_actions call when the flag is set (lines 607-610), and
the metadata json.dump after a successful validation (lines 612-614). -/
def stageValidate (cfg : RunConfig) (a : AssetBehavior) (s : Bool × LoopState) :
    Bool × LoopState :=
  if s.2.fatal then s
  else if s.1 && !cfg.skipThorMetadata then
    if !s.2.ctrl && a.ctrlCreateError.isSome then
      (s.1, { s.2 with fatal := true })
    else
      match validate_in_thor a.uid cfg.skipThorRender a.validate s.2.ledger with
      | .error _ =>
        (s.1, { s.2 with events := s.2.events ++ [(a.uid, Stage.validate)],
                         ctrl := true, fatal := true })
      | .ok r =>
        if cfg.addVisualizeThorActions && a.visActionsError.isSome then
          (r.1, { s.2 with ledger := r.2,
                           events := s.2.events ++ [(a.uid, Stage.validate)],
                           ctrl := true, fatal := true })
        else if r.1 && a.metadataWriteError.isSome then
          (r.1, { s.2 with ledger := r.2,
                           events := s.2.events ++ [(a.uid, Stage.validate)],
                           ctrl := true, fatal := true })
        else
          (r.1, { s.2 with ledger := r.2,
                           events := s.2.events ++ [(a.uid, Stage.validate)],
                           ctrl := true })
  else s

/-- One iteration of the asset loop (lines 474-619).  Stages run in fixed
order gated by skip flags and by the running success flag; an exception in
annotation resolution (lines 479-491) or in the save block escapes the loop
(fatal). -/
def processAsset (cfg : RunConfig) (a : AssetBehavior) (st : LoopState) :
    LoopState :=
  if a.annotMissing then { st with fatal := true }
  else
    (stageValidate cfg a (stageSave cfg a (stageColl cfg a (stageConv cfg a st)))).2

/-- The asset loop: processes assets in order, stopping early when an
exception escapes to the outer bare `except`. -/
def runLoop (cfg : RunConfig) : List AssetBehavior → LoopState → LoopState
  | [], st => st
  | a :: rest, st =>
    let st2 := processAsset cfg a st
    if st2.fatal then st2 else runLoop cfg rest st2

/-- Observable outcome of a whole batch run. -/
structure RunResult where
  ledger : Ledger
  events : List (String × Stage)
  completed : Bool
  reportWritten : Bool
  reportContents : Option String
  ctrlExists : Bool
  controllerStopped : Bool

/-- Embedding of optimize_assets_for_thor (lines 436-640).  After the loop,
the report is serialized and written only on the non-exceptional path and
only when the ledger is non-empty (lines 621-625); the finally block stops
the controller unless it was supplied by the caller (lines 633-638, where
`controller.stop()` on a never-created `None` controller raises and is
swallowed). -/
def optimize_assets_for_thor (cfg : RunConfig) (assets : List AssetBehavior) :
    RunResult :=
  let st := runLoop cfg assets ⟨[], [], cfg.givenController, false⟩
  let completed := !st.fatal
  let reportContents : Option String :=
    if completed then some (serializeLedger st.ledger) else none
  let reportWritten := completed && cfg.reportConfigured && !st.ledger.isEmpty
  let stopped := !cfg.givenController && st.ctrl
  ⟨st.ledger, st.events, completed, reportWritten, reportContents, st.ctrl,
   stopped⟩

/-! The rotation optimizer (lines 272-330), embedded over ℝ.  The python
code operates on float32/float64 numpy arrays; exact real arithmetic is the
idealization of that numerics. -/

/-- One vertex record with keys x, y, z, as consumed at line 303. -/
structure Vertex where
  x : ℝ
  y : ℝ
  z : ℝ

/-- np.deg2rad. -/
noncomputable def deg2rad (d : ℝ) : ℝ := d * Real.pi / 180

/-- np.rad2deg. -/
noncomputable def rad2deg (r : ℝ) : ℝ := r * 180 / Real.pi

/-- np.linspace with endpoint=True: a single sample is the start point;
otherwise num evenly spaced samples from start to stop inclusive. -/
noncomputable def linspace (start stop : ℝ) (num : ℕ) : List ℝ :=
  if num = 1 then [start]
  else (List.range num).map
    (fun (i : ℕ) => start + (i : ℝ) * ((stop - start) / ((num : ℝ) - 1)))

/-- np.min over one row of the 3×N array (raising on an empty row is handled
by the caller `compute_axis_aligned_bbox_volume`). -/
noncomputable def rowMin : List ℝ → ℝ
  | [] => 0
  | [x] => x
  | x :: y :: ys => min x (rowMin (y :: ys))

/-- np.max over one row of the 3×N array. -/
noncomputable def rowMax : List ℝ → ℝ
  | [] => 0
  | [x] => x
  | x :: y :: ys => max x (rowMax (y :: ys))

/-- Product of per-axis extents: `float((maxes - mins).prod())` at line 279. -/
noncomputable def extentProd (rows : List (List ℝ)) : ℝ :=
  (rows.map (fun r => rowMax r - rowMin r)).foldl (fun acc v => acc * v) 1

/-- compute_axis_aligned_bbox_volume (lines 272-279): asserts the array has
exactly 3 rows, then returns the product of per-axis extents.  np.min/np.max
on a zero-length axis raise, which the Except models. -/
noncomputable def compute_axis_aligned_bbox_volume (rows : List (List ℝ)) :
    Except String ℝ :=
  if rows.length = 3 then
    if rows.any (fun r => r.isEmpty) then
      .error "zero-size array to reduction operation"
    else .ok (extentProd rows)
  else .error "AssertionError: vertices.shape[0] == 3"

/-- Result of `np.matmul(get_rotmat(t), vertices_arr)` (lines 307-314, 321)
applied to the 3×N array with rows xs, ys, zs: the rotation is about the
y-axis, so row 0 becomes cos t · x − sin t · z, row 1 stays y, and row 2
becomes sin t · x + cos t · z. -/
noncomputable def rotatedRows (t : ℝ) (xs ys zs : List ℝ) : List (List ℝ) :=
  [(xs.zip zs).map (fun p => Real.cos t * p.1 - Real.sin t * p.2),
   ys,
   (xs.zip zs).map (fun p => Real.sin t * p.1 + Real.cos t * p.2)]

/-- The candidate angles (lines 316-317):
`np.linspace(start=-max_rad_change, stop=max_rad_change, num=increments)`. -/
noncomputable def sampledThetas (maxDegChange : ℝ) (increments : ℕ) : List ℝ :=
  linspace (-(deg2rad maxDegChange)) (deg2rad maxDegChange) increments

/-- The volume-accumulation loop (lines 318-322): volumes are appended in
theta order; an exception from the bbox computation propagates. -/
noncomputable def volumesLoop (xs ys zs : List ℝ) :
    List ℝ → Except String (List ℝ)
  | [] => .ok []
  | t :: ts =>
    match compute_axis_aligned_bbox_volume (rotatedRows t xs ys zs) with
    | .error e => .error e
    | .ok v =>
      match volumesLoop xs ys zs ts with
      | .error e => .error e
      | .ok vs => .ok (v :: vs)

/-- Minimum value of a list of reals (np.min over the volumes). -/
noncomputable def listMin : List ℝ → ℝ
  | [] => 0
  | [x] => x
  | x :: y :: ys => min x (listMin (y :: ys))

/-- np.argmin: the first index attaining the minimum value. -/
noncomputable def argminFirst (l : List ℝ) : ℕ :=
  l.findIdx (fun x => decide (x ≤ listMin l))

/-- Line 324: `volumes[len(volumes) // 2] *= 1 - bias_for_no_rotation`. -/
noncomputable def biasVolumes (volumes : List ℝ) (bias : ℝ) : List ℝ :=
  volumes.set (volumes.length / 2)
    (volumes.getD (volumes.length / 2) 0 * (1 - bias))

/-- compute_thor_rotation_to_obtain_min_bounding_box (lines 282-330).
The two asserts (lines 297-300) raise AssertionError when violated; with an
empty vertex list, `np.array([]).transpose((1, 0))` at line 305 raises
ValueError.  Otherwise the candidate thetas are sampled, their bounding-box
volumes computed, the middle volume rescaled by (1 - bias), and the negated
degree value of the first-argmin theta returned (lines 326-330). -/
noncomputable def compute_thor_rotation_to_obtain_min_bounding_box
    (vertices : List Vertex) (maxDegChange : ℝ) (increments : ℕ)
    (biasForNoRotation : ℝ) : Except String ℝ :=
  if ¬ (0 ≤ maxDegChange) then .error "AssertionError: max_deg_change >= 0"
  else if ¬ (1 ≤ increments ∧ increments % 2 = 1) then
    .error "Increments must be non-negative and odd"
  else if vertices.isEmpty then .error "ValueError: axes do not match array"
  else
    let xs := vertices.map Vertex.x
    let ys := vertices.map Vertex.y
    let zs := vertices.map Vertex.z
    let thetas := sampledThetas maxDegChange increments
    match volumesLoop xs ys zs thetas with
    | .error e => .error e
    | .ok volumes =>
      let volumes2 := biasVolumes volumes biasForNoRotation
      .ok (-(rad2deg (thetas.getD (argminFirst volumes2) 0)))

/-- Axis-aligned bounding-box volume of the vertex set rotated by theta
(specification accessor used to state theorems about individual candidates;
it evaluates the same expression as one iteration of the volume loop). -/
noncomputable def volumeAtTheta (vertices : List Vertex) (t : ℝ) : ℝ :=
  match compute_axis_aligned_bbox_volume
      (rotatedRows t (vertices.map Vertex.x) (vertices.map Vertex.y)
        (vertices.map Vertex.z)) with
  | .ok v => v
  | .error _ => 0

/-- Volume of the i-th sampled candidate angle. -/
noncomputable def candidateVolume (vertices : List Vertex) (d : ℝ) (k i : ℕ) :
    ℝ :=
  volumeAtTheta vertices ((sampledThetas d k).getD i 0)

/-- The angle of the candidate whose volume line 324 rescales: the candidate
at index `len(volumes) // 2 = increments / 2`. -/
noncomputable def biasedCandidateTheta (d : ℝ) (k : ℕ) : ℝ :=
  (sampledThetas d k).getD (k / 2) 0

/-- Sufficient condition under which no exception can escape the loop body
for this asset: annotation resolution succeeds, the save block succeeds,
the validation reset/step calls do not raise, controller creation succeeds,
the metadata write succeeds, and add_visualize_thor_actions is either
disabled for the run or does not raise.  These are exactly the loop-body
sites that no per-asset try protects. -/
def noUncaughtSources (cfg : RunConfig) (a : AssetBehavior) : Bool :=
  !a.annotMissing && a.saveError.isNone && !a.validate.isResetRaised &&
  a.ctrlCreateError.isNone && a.metadataWriteError.isNone &&
  (!cfg.addVisualizeThorActions || a.visActionsError.isNone)

/-! Concrete fixtures used in counterexamples and witnesses. -/

/-- Configuration running every stage, with a report file configured and no
caller-supplied controller. -/
def cfgDefault : RunConfig := ⟨false, false, false, false, true, false, false⟩

/-- Same configuration but with a caller-supplied controller. -/
def cfgGiven : RunConfig := ⟨false, false, false, false, true, true, false⟩

/-- Conversion oracle whose subprocess hits the timeout. -/
def convTimeout : ConvBehavior := ⟨.timedOut, false, none⟩

/-- Asset whose blender subprocess times out during conversion. -/
def assetTimeout : AssetBehavior :=
  ⟨"u1", "blender", false, convTimeout, .returned false "", none, .allOk,
   none, none, none⟩

/-- Asset failing conversion: nonzero exit, no marker, no .obj artifact. -/
def assetConvFail : AssetBehavior :=
  ⟨"A", "c", false, ⟨.exited 1 "bad" "tr", false, none⟩, .returned false "",
   none, .allOk, none, none, none⟩

/-- Asset converting fine but whose save/compress block raises. -/
def assetSaveRaises : AssetBehavior :=
  ⟨"B", "c", false, ⟨.exited 0 "ok" "", true, none⟩, .returned false "",
   some "boom", .allOk, none, none, none⟩

/-- Asset that succeeds through every stage. -/
def assetOk : AssetBehavior :=
  ⟨"C", "c", false, ⟨.exited 0 "ok" "", true, none⟩, .returned false "",
   none, .allOk, none, none, none⟩

/-- Vertex set of a single point: every rotated bounding box has volume 0. -/
noncomputable def ptsSingle : List Vertex := [⟨1, 1, 1⟩]

/-- Two-point vertex set whose bounding-box volume at −45° nearly ties the
volume at 0° (within one percent). -/
noncomputable def pts2 : List Vertex := [⟨0, 0, 0⟩, ⟨1, 1, 207 / 500⟩]

/-- Two-point vertex set spanning the unit cube. -/
noncomputable def ptsCube : List Vertex := [⟨0, 0, 0⟩, ⟨1, 1, 1⟩]

/-! Helper lemmas about the sequencer loop. -/

theorem stageConv_fatal (cfg : RunConfig) (a : AssetBehavior) (st : LoopState) :
    (stageConv cfg a st).2.fatal = st.fatal := by
  unfold stageConv; split <;> rfl

theorem stageColl_fatal (cfg : RunConfig) (a : AssetBehavior)
    (s : Bool × LoopState) : (stageColl cfg a s).2.fatal = s.2.fatal := by
  unfold stageColl; split <;> rfl

theorem stageSave_fatal (cfg : RunConfig) (a : AssetBehavior)
    (s : Bool × LoopState) (h : a.saveError = none) :
    (stageSave cfg a s).2.fatal = s.2.fatal := by
  unfold stageSave; split
  · simp [h]
  · rfl

theorem validate_in_thor_ok (n : String) (si : Bool) (b : ValidateBehavior)
    (L : Ledger) (hr : b.isResetRaised = false) :
    ∃ p, validate_in_thor n si b L = .ok p := by
  cases b with
  | resetRaised tr => simp [ValidateBehavior.isResetRaised] at hr
  | createFailed la em => exact ⟨_, rfl⟩
  | viewFailed la em =>
    cases si with
    | true => exact ⟨(true, L), by simp [validate_in_thor]⟩
    | false =>
      exact ⟨(false, ledgerReplace L n
        [("failure_reason", THOR_VIEW_ASSET_FAIL), ("lastAction", la),
         ("errorMessage", em)]), by simp [validate_in_thor]⟩
  | allOk => exact ⟨_, rfl⟩
  | raised tr la em => exact ⟨_, rfl⟩

theorem stageValidate_fatal (cfg : RunConfig) (a : AssetBehavior)
    (s : Bool × LoopState) (hr : a.validate.isResetRaised = false)
    (hcc : a.ctrlCreateError = none) (hmw : a.metadataWriteError = none)
    (hva : cfg.addVisualizeThorActions = false ∨ a.visActionsError = none) :
    (stageValidate cfg a s).2.fatal = s.2.fatal := by
  unfold stageValidate
  split
  · rfl
  · split
    · split
      · next h => simp [hcc] at h
      · obtain ⟨p, hp⟩ := validate_in_thor_ok a.uid cfg.skipThorRender
          a.validate s.2.ledger hr
        rw [hp]
        rcases hva with h | h <;> simp [h, hmw]
    · rfl

theorem processAsset_fatal (cfg : RunConfig) (a : AssetBehavior)
    (st : LoopState) (hs : noUncaughtSources cfg a = true) :
    (processAsset cfg a st).fatal = st.fatal := by
  have hparts := hs
  simp only [noUncaughtSources, Bool.and_eq_true, Bool.not_eq_true',
    Option.isNone_iff_eq_none, Bool.or_eq_true] at hparts
  obtain ⟨⟨⟨⟨⟨h1, h2⟩, h3⟩, h4⟩, h5⟩, h6⟩ := hparts
  have hva : cfg.addVisualizeThorActions = false ∨ a.visActionsError = none := by
    rcases h6 with h | h
    · exact Or.inl h
    · exact Or.inr h
  unfold processAsset
  rw [if_neg (by simp [h1])]
  rw [stageValidate_fatal _ _ _ h3 h4 h5 hva, stageSave_fatal _ _ _ h2,
    stageColl_fatal, stageConv_fatal]

theorem stageConv_events_mem (cfg : RunConfig) (a : AssetBehavior)
    (st : LoopState) (p : String × Stage) (hp : p ∈ st.events) :
    p ∈ (stageConv cfg a st).2.events := by
  unfold stageConv; split
  · exact hp
  · simpa using Or.inl hp

theorem stageColl_events_mem (cfg : RunConfig) (a : AssetBehavior)
    (s : Bool × LoopState) (p : String × Stage) (hp : p ∈ s.2.events) :
    p ∈ (stageColl cfg a s).2.events := by
  unfold stageColl; split
  · simpa using Or.inl hp
  · exact hp

theorem stageSave_events_mem (cfg : RunConfig) (a : AssetBehavior)
    (s : Bool × LoopState) (p : String × Stage) (hp : p ∈ s.2.events) :
    p ∈ (stageSave cfg a s).2.events := by
  unfold stageSave; split
  · split
    · simpa using Or.inl hp
    · simpa using Or.inl hp
  · exact hp

theorem stageValidate_events_mem (cfg : RunConfig) (a : AssetBehavior)
    (s : Bool × LoopState) (p : String × Stage) (hp : p ∈ s.2.events) :
    p ∈ (stageValidate cfg a s).2.events := by
  unfold stageValidate
  split
  · exact hp
  · split
    · split
      · exact hp
      · split
        · simpa using Or.inl hp
        · split
          · simpa using Or.inl hp
          · split
            · simpa using Or.inl hp
            · simpa using Or.inl hp
    · exact hp

theorem processAsset_events_mem (cfg : RunConfig) (a : AssetBehavior)
    (st : LoopState) (p : String × Stage) (hp : p ∈ st.events) :
    p ∈ (processAsset cfg a st).events := by
  unfold processAsset; split
  · exact hp
  · exact stageValidate_events_mem _ _ _ _
      (stageSave_events_mem _ _ _ _
        (stageColl_events_mem _ _ _ _ (stageConv_events_mem _ _ _ _ hp)))

theorem processAsset_conv_event (cfg : RunConfig) (a : AssetBehavior)
    (st : LoopState) (h1 : a.annotMissing = false)
    (hc : cfg.skipConversion = false) :
    (a.uid, Stage.conversion) ∈ (processAsset cfg a st).events := by
  unfold processAsset
  rw [if_neg (by simp [h1])]
  apply stageValidate_events_mem
  apply stageSave_events_mem
  apply stageColl_events_mem
  unfold stageConv
  rw [if_neg (by simp [hc])]
  simp

theorem stageConv_ctrl (cfg : RunConfig) (a : AssetBehavior) (st : LoopState) :
    (stageConv cfg a st).2.ctrl = st.ctrl := by
  unfold stageConv; split <;> rfl

theorem stageColl_ctrl (cfg : RunConfig) (a : AssetBehavior)
    (s : Bool × LoopState) : (stageColl cfg a s).2.ctrl = s.2.ctrl := by
  unfold stageColl; split <;> rfl

theorem stageSave_ctrl (cfg : RunConfig) (a : AssetBehavior)
    (s : Bool × LoopState) : (stageSave cfg a s).2.ctrl = s.2.ctrl := by
  unfold stageSave; split
  · split <;> rfl
  · rfl

theorem stageValidate_ctrl (cfg : RunConfig) (a : AssetBehavior)
    (s : Bool × LoopState) (h : s.2.ctrl = true) :
    (stageValidate cfg a s).2.ctrl = true := by
  unfold stageValidate
  split
  · exact h
  · split
    · split
      · exact h
      · split
        · rfl
        · split
          · rfl
          · split
            · rfl
            · rfl
    · exact h

theorem processAsset_ctrl (cfg : RunConfig) (a : AssetBehavior)
    (st : LoopState) (h : st.ctrl = true) :
    (processAsset cfg a st).ctrl = true := by
  unfold processAsset; split
  · exact h
  · exact stageValidate_ctrl _ _ _ (by
      rw [stageSave_ctrl, stageColl_ctrl, stageConv_ctrl]; exact h)

theorem runLoop_fatal_false (cfg : RunConfig) (assets : List AssetBehavior)
    (st : LoopState)
    (hsafe : ∀ a ∈ assets, noUncaughtSources cfg a = true)
    (h : st.fatal = false) : (runLoop cfg assets st).fatal = false := by
  induction assets generalizing st with
  | nil => simpa [runLoop] using h
  | cons a rest ih =>
    have ha := hsafe a (List.mem_cons_self a rest)
    have hf : (processAsset cfg a st).fatal = false := by
      rw [processAsset_fatal _ _ _ ha]; exact h
    simp only [runLoop, hf, Bool.false_eq_true, if_false]
    exact ih _ (fun x hx => hsafe x (List.mem_cons_of_mem _ hx)) hf

theorem runLoop_events_mem (cfg : RunConfig) (assets : List AssetBehavior)
    (st : LoopState) (p : String × Stage) (hp : p ∈ st.events) :
    p ∈ (runLoop cfg assets st).events := by
  induction assets generalizing st with
  | nil => simpa [runLoop] using hp
  | cons a rest ih =>
    have h2 : p ∈ (processAsset cfg a st).events :=
      processAsset_events_mem _ _ _ _ hp
    by_cases hf : (processAsset cfg a st).fatal = true
    · simp only [runLoop, hf, if_true]; exact h2
    · simp only [runLoop, hf, if_false]; exact ih _ h2

theorem runLoop_ctrl (cfg : RunConfig) (assets : List AssetBehavior)
    (st : LoopState) (h : st.ctrl = true) :
    (runLoop cfg assets st).ctrl = true := by
  induction assets generalizing st with
  | nil => simpa [runLoop] using h
  | cons a rest ih =>
    have h2 : (processAsset cfg a st).ctrl = true := processAsset_ctrl _ _ _ h
    by_cases hf : (processAsset cfg a st).fatal = true
    · simp only [runLoop, hf, if_true]; exact h2
    · simp only [runLoop, hf, if_false]; exact ih _ h2

theorem runLoop_conv_events (cfg : RunConfig) (assets : List AssetBehavior)
    (st : LoopState)
    (hsafe : ∀ a ∈ assets, noUncaughtSources cfg a = true)
    (hc : cfg.skipConversion = false) (hst : st.fatal = false) :
    ∀ a ∈ assets, (a.uid, Stage.conversion) ∈ (runLoop cfg assets st).events := by
  induction assets generalizing st with
  | nil => intro a ha; exact absurd ha (List.not_mem_nil a)
  | cons a rest ih =>
    have ha := hsafe a (List.mem_cons_self a rest)
    have ham : a.annotMissing = false := by
      have := ha
      simp only [noUncaughtSources, Bool.and_eq_true, Bool.not_eq_true'] at this
      exact this.1.1.1.1.1
    have hf : (processAsset cfg a st).fatal = false := by
      rw [processAsset_fatal _ _ _ ha]; exact hst
    intro x hx
    simp only [runLoop, hf, Bool.false_eq_true, if_false]
    rcases List.mem_cons.mp hx with hxa | hxr
    · subst hxa
      exact runLoop_events_mem _ _ _ _ (processAsset_conv_event _ _ _ ham hc)
    · exact ih _ (fun y hy => hsafe y (List.mem_cons_of_mem _ hy)) hf x hxr

/-! Claim theorems. -/

/-- C1: claims every failing asset gets a failure_reason equal to the code
of the first stage that failed for it.  Evaluating the code at the failing
input — a one-asset batch whose conversion subprocess times out — shows the
asset fails at conversion (no later stage runs), a ledger entry exists, yet
the entry contains no failure_reason key at all: line 190 writes the
timeout code into the blender_output key, which line 194 then overwrites
with the captured output. -/
theorem C1_timeout_entry_lacks_failure_reason :
    (ledgerGet (optimize_assets_for_thor cfgDefault [assetTimeout]).ledger
      "u1").isSome = true ∧
    ((ledgerGet (optimize_assets_for_thor cfgDefault [assetTimeout]).ledger
      "u1").getD []).all (fun p => p.1 != "failure_reason") = true ∧
    (optimize_assets_for_thor cfgDefault [assetTimeout]).events
      = [("u1", Stage.conversion)] := by
  decide

/-- C2 counterexample: a conversion exiting nonzero whose captured output
contains the benign marker is classified as success even though the .obj
side-artifact is absent — the claim requires artifact presence AND the
marker, but line 185 checks only the marker. -/
theorem C2_counterexample :
    (ConvBehavior.mk (.exited 1 "xy Progress: 100.00% z" "tr") false
      none).objExists = false ∧
    (glb_to_thor "u" "c"
      ⟨.exited 1 "xy Progress: 100.00% z" "tr", false, none⟩ []).success
      = true := by
  decide

/-- C2 amended: for a conversion subprocess exiting with nonzero code (and a
post-conversion compress/save block that succeeds), the stage is classified
as success exactly when the benign marker string appears in the captured
output; presence of the .obj artifact is not checked on that rescue path. -/
theorem C2_amended_marker_rescue (uid cmd out tr : String) (code : Int)
    (objE : Bool) (L : Ledger) (hc : code ≠ 0) :
    (glb_to_thor uid cmd ⟨.exited code out tr, objE, none⟩ L).success
      = strContains (out ++ ", Exception: " ++ tr) MEMORY_LEAK_MARKER := by
  have hb : (code == 0) = false := by
    simp only [beq_eq_false_iff_ne, ne_eq]; exact hc
  unfold glb_to_thor afterPopenTry
  simp only [if_neg hc, hb, Bool.false_and, Bool.false_or]
  split
  · next h => simp [h]
  · next h => simp [Bool.of_not_eq_true h]

/-- Witness for C2_amended_marker_rescue at a concrete input. -/
theorem C2_amended_marker_rescue_witness :
    (1 : Int) ≠ 0 ∧
    (glb_to_thor "u" "c"
      ⟨.exited 1 "Progress: 100.00%" "t", false, none⟩ []).success
      = strContains ("Progress: 100.00%" ++ ", Exception: " ++ "t")
          MEMORY_LEAK_MARKER :=
  ⟨by decide,
   C2_amended_marker_rescue "u" "c" "Progress: 100.00%" "t" 1 false []
     (by decide)⟩

/-- C3: claims a timed-out conversion records failure reason = timeout and
a diagnostic holding the configured command.  Evaluating glb_to_thor at the
failing input: the process is killed and the blender_output diagnostic does
record the configured command, but no failure_reason key is recorded — the
timeout code is written to the blender_output key (line 190) and then
overwritten by the output text (line 194). -/
theorem C3_timeout_diagnostics_eval :
    (glb_to_thor "u1" "blender" convTimeout []).killed = true ∧
    (glb_to_thor "u1" "blender" convTimeout []).success = false ∧
    lookupKey
      ((ledgerGet (glb_to_thor "u1" "blender" convTimeout []).ledger
        "u1").getD []) "blender_output"
      = some ("Command timed out, command: " ++ "blender") ∧
    lookupKey
      ((ledgerGet (glb_to_thor "u1" "blender" convTimeout []).ledger
        "u1").getD []) "failure_reason" = none := by
  decide

/-- C7 counterexample: a batch in which asset A fails conversion (non-empty
ledger) and asset B then raises inside the save block.  The exception
reaches the outer bare except, so lines 621-625 are skipped: no report is
written although an asset failed, contradicting the claim. -/
theorem C7_counterexample :
    cfgDefault.reportConfigured = true ∧
    (optimize_assets_for_thor cfgDefault [assetConvFail, assetSaveRaises]).ledger
      ≠ [] ∧
    (optimize_assets_for_thor cfgDefault
      [assetConvFail, assetSaveRaises]).reportWritten = false := by
  decide

/-- C7 amended: for a batch run with a report name configured THAT COMPLETES
ITS LOOP (no exception escaped to the outer bare except), the report is
written iff the ledger is non-empty, and its contents are the ledger
serialized at run end.  On an aborted run no report is written even when
assets failed. -/
theorem C7_amended_report_on_completion (cfg : RunConfig)
    (assets : List AssetBehavior) (hrep : cfg.reportConfigured = true)
    (hc : (optimize_assets_for_thor cfg assets).completed = true) :
    ((optimize_assets_for_thor cfg assets).reportWritten = true ↔
      (optimize_assets_for_thor cfg assets).ledger ≠ []) ∧
    (optimize_assets_for_thor cfg assets).reportContents
      = some (serializeLedger (optimize_assets_for_thor cfg assets).ledger) := by
  have hfatal : (runLoop cfg assets ⟨[], [], cfg.givenController, false⟩).fatal
      = false := by
    unfold optimize_assets_for_thor at hc
    simpa using hc
  unfold optimize_assets_for_thor
  simp [hrep, hfatal, List.isEmpty_iff]

/-- Witness for C7_amended_report_on_completion at a concrete input. -/
theorem C7_amended_report_on_completion_witness :
    cfgDefault.reportConfigured = true ∧
    (optimize_assets_for_thor cfgDefault [assetConvFail]).completed = true ∧
    (((optimize_assets_for_thor cfgDefault [assetConvFail]).reportWritten = true
        ↔ (optimize_assets_for_thor cfgDefault [assetConvFail]).ledger ≠ []) ∧
      (optimize_assets_for_thor cfgDefault [assetConvFail]).reportContents
        = some (serializeLedger
            (optimize_assets_for_thor cfgDefault [assetConvFail]).ledger)) :=
  ⟨rfl, by decide,
   C7_amended_report_on_completion cfgDefault [assetConvFail] rfl (by decide)⟩

/-- C8 counterexample: in the batch [assetConvFail, assetSaveRaises,
assetOk], asset B raises inside the save block; the batch aborts, asset C
is never attempted (no event carries uid "C"), and the exception is not
converted into a ledger entry for B — contradicting the claim that every
stage exception becomes a ledger entry and the batch attempts every asset. -/
theorem C8_counterexample :
    (optimize_assets_for_thor cfgDefault
      [assetConvFail, assetSaveRaises, assetOk]).completed = false ∧
    ((optimize_assets_for_thor cfgDefault
      [assetConvFail, assetSaveRaises, assetOk]).events.all
        (fun p => p.1 != "C")) = true ∧
    ledgerGet (optimize_assets_for_thor cfgDefault
      [assetConvFail, assetSaveRaises, assetOk]).ledger "B" = none := by
  decide

/-- C8 amended: stage FAILURES, and the exceptions that the stage wrappers
catch (inside glb_to_thor, obj_to_colliders, and validate_in_thor's try
block), are converted into ledger entries and never abort the batch; but
the loop body has six exception sites no per-asset try protects —
annotation resolution (lines 479-491), the save/compress block (527-567),
controller creation (575-588), the reset/step calls preceding
validate_in_thor's try (379-380), add_visualize_thor_actions (607-610), and
the metadata json.dump (612-614) — and an exception at any of them escapes
to the outer bare except and aborts the remaining batch without a ledger
entry.  When no asset triggers any of those sites, the batch attempts every
requested asset and completes; the ledger is returned to the caller in all
cases (it is a field of the total function's result). -/
theorem C8_amended_isolation (cfg : RunConfig) (assets : List AssetBehavior)
    (hsafe : ∀ a ∈ assets, noUncaughtSources cfg a = true)
    (hc : cfg.skipConversion = false) :
    (optimize_assets_for_thor cfg assets).completed = true ∧
    ∀ a ∈ assets,
      (a.uid, Stage.conversion) ∈ (optimize_assets_for_thor cfg assets).events := by
  unfold optimize_assets_for_thor
  constructor
  · simp only [Bool.not_eq_true']
    exact runLoop_fatal_false cfg assets _ hsafe rfl
  · exact runLoop_conv_events cfg assets _ hsafe hc rfl

/-- Witness for C8_amended_isolation at a concrete input. -/
theorem C8_amended_isolation_witness :
    (∀ a ∈ [assetConvFail, assetOk],
      noUncaughtSources cfgDefault a = true) ∧
    cfgDefault.skipConversion = false ∧
    ((optimize_assets_for_thor cfgDefault [assetConvFail, assetOk]).completed
        = true ∧
      ∀ a ∈ [assetConvFail, assetOk],
        (a.uid, Stage.conversion)
          ∈ (optimize_assets_for_thor cfgDefault [assetConvFail, assetOk]).events) :=
  ⟨by decide, rfl,
   C8_amended_isolation cfgDefault [assetConvFail, assetOk] (by decide) rfl⟩

/-- C9: on every exit path (completed or aborted), the controller is stopped
iff the run itself created it: teardown happens exactly when no controller
was supplied by the caller and a controller exists at the end of the run;
in particular a caller-supplied controller is never stopped, and a supplied
controller still exists at the end. -/
theorem C9_controller_teardown (cfg : RunConfig) (assets : List AssetBehavior) :
    ((optimize_assets_for_thor cfg assets).controllerStopped = true ↔
      cfg.givenController = false ∧
        (optimize_assets_for_thor cfg assets).ctrlExists = true) ∧
    (cfg.givenController = true →
      (optimize_assets_for_thor cfg assets).controllerStopped = false) ∧
    (cfg.givenController = true →
      (optimize_assets_for_thor cfg assets).ctrlExists = true) := by
  refine ⟨?_, ?_, ?_⟩
  · unfold optimize_assets_for_thor
    simp [Bool.and_eq_true, Bool.not_eq_true']
  · intro h
    unfold optimize_assets_for_thor
    simp [h]
  · intro h
    unfold optimize_assets_for_thor
    exact runLoop_ctrl cfg assets _ h

/-- Witness for C9_controller_teardown: with a caller-supplied controller
the run never stops it. -/
theorem C9_controller_teardown_witness :
    (optimize_assets_for_thor cfgGiven [assetOk]).controllerStopped = false :=
  (C9_controller_teardown cfgGiven [assetOk]).2.1 rfl

/-! Helper lemmas about the rotation optimizer. -/

theorem linspace_one (a b : ℝ) : linspace a b 1 = [a] := by
  simp [linspace]

theorem linspace_length (a b : ℝ) (n : ℕ) : (linspace a b n).length = n := by
  unfold linspace
  split
  · simp [*]
  · rw [List.length_map, List.length_range]

theorem linspace_getD (a b : ℝ) (n i : ℕ) (hn : n ≠ 1) (hi : i < n) :
    (linspace a b n).getD i 0 = a + i * ((b - a) / ((n : ℝ) - 1)) := by
  unfold linspace
  rw [if_neg hn]
  have hi2 : i < ((List.range n).map
      (fun (i : ℕ) => a + (i : ℝ) * ((b - a) / ((n : ℝ) - 1)))).length := by
    rw [List.length_map, List.length_range]
    exact hi
  rw [List.getD_eq_getElem?_getD, List.getElem?_eq_getElem hi2,
    Option.getD_some, List.getElem_map, List.getElem_range]

theorem deg2rad_zero : deg2rad 0 = 0 := by
  simp [deg2rad]

theorem rad2deg_zero : rad2deg 0 = 0 := by
  simp [rad2deg]

theorem rad2deg_deg2rad (d : ℝ) : rad2deg (deg2rad d) = d := by
  unfold rad2deg deg2rad
  field_simp

theorem rad2deg_neg (r : ℝ) : rad2deg (-r) = -(rad2deg r) := by
  unfold rad2deg
  ring

theorem sampledThetas_length (d : ℝ) (k : ℕ) : (sampledThetas d k).length = k :=
  linspace_length _ _ _

theorem sampledThetas_one (d : ℝ) : sampledThetas d 1 = [-(deg2rad d)] :=
  linspace_one _ _

theorem sampledThetas_getD (d : ℝ) (k i : ℕ) (hk : 2 ≤ k) (hi : i < k) :
    (sampledThetas d k).getD i 0
      = -(deg2rad d) + i * (2 * deg2rad d / ((k : ℝ) - 1)) := by
  unfold sampledThetas
  rw [linspace_getD _ _ _ _ (by omega) hi]
  ring_nf

theorem sampledThetas_middle (d : ℝ) (k : ℕ) (hk : 3 ≤ k) (ho : k % 2 = 1) :
    (sampledThetas d k).getD (k / 2) 0 = 0 := by
  rw [sampledThetas_getD d k (k / 2) (by omega) (by omega)]
  have hk1 : ((k : ℝ) - 1) ≠ 0 := by
    have h3 : (3 : ℝ) ≤ (k : ℝ) := by exact_mod_cast hk
    intro h
    linarith
  have hc : ((k / 2 : ℕ) : ℝ) = ((k : ℝ) - 1) / 2 := by
    have h : k = 2 * (k / 2) + 1 := by omega
    have h2 := congrArg (fun n : ℕ => (n : ℝ)) h
    push_cast at h2
    linarith
  rw [hc]
  field_simp
  ring

theorem listMin_le (l : List ℝ) (x : ℝ) (hx : x ∈ l) : listMin l ≤ x := by
  induction l with
  | nil => exact absurd hx (List.not_mem_nil x)
  | cons a t ih =>
    cases t with
    | nil =>
      rcases List.mem_cons.mp hx with h | h
      · simp [listMin, h]
      · exact absurd h (List.not_mem_nil x)
    | cons b t2 =>
      rcases List.mem_cons.mp hx with h | h
      · simp [listMin, h, min_le_left]
      · calc listMin (a :: b :: t2) ≤ listMin (b :: t2) := by
              simp [listMin, min_le_right]
          _ ≤ x := ih h

theorem listMin_mem (l : List ℝ) (hl : l ≠ []) : listMin l ∈ l := by
  induction l with
  | nil => exact absurd rfl hl
  | cons a t ih =>
    cases t with
    | nil => simp [listMin]
    | cons b t2 =>
      rcases le_total a (listMin (b :: t2)) with h | h
      · simp [listMin, min_eq_left h]
      · have : listMin (a :: b :: t2) = listMin (b :: t2) := by
          simp [listMin, min_eq_right h]
        rw [this]
        exact List.mem_cons_of_mem _ (ih (by simp))

theorem argminFirst_lt_length (l : List ℝ) (hl : l ≠ []) :
    argminFirst l < l.length := by
  unfold argminFirst
  exact List.findIdx_lt_length_of_exists ⟨listMin l, listMin_mem l hl, by simp⟩

theorem argminFirst_singleton (x : ℝ) : argminFirst [x] = 0 := by
  unfold argminFirst
  rw [List.findIdx_cons]
  simp [listMin]

theorem argminFirst_eq_of_strict (l : List ℝ) (m : ℕ) (hm : m < l.length)
    (h : ∀ i, i < l.length → i ≠ m → l.getD m 0 < l.getD i 0) :
    argminFirst l = m := by
  have hgm : l.getD m 0 = l[m] := by
    rw [List.getD_eq_getElem?_getD, List.getElem?_eq_getElem hm]
    rfl
  have hne : l ≠ [] := by
    intro he
    rw [he] at hm
    exact absurd hm (by simp)
  have hmin : listMin l = l.getD m 0 := by
    have h1 : listMin l ≤ l.getD m 0 := by
      apply listMin_le
      rw [hgm]
      exact List.getElem_mem hm
    have h2 : l.getD m 0 ≤ listMin l := by
      obtain ⟨j, hj, hje⟩ := List.mem_iff_getElem.mp (listMin_mem l hne)
      by_cases hjm : j = m
      · subst hjm
        rw [hgm, ← hje]
      · have hlt := h j hj hjm
        have hj2 : l.getD j 0 = listMin l := by
          rw [List.getD_eq_getElem?_getD, List.getElem?_eq_getElem hj]
          exact hje
        rw [← hj2]
        exact le_of_lt hlt
    exact le_antisymm h1 h2
  unfold argminFirst
  rw [List.findIdx_eq hm]
  constructor
  · simp only [decide_eq_true_eq]
    rw [← hgm, hmin]
  · intro j hj
    have hjl : j < l.length := lt_trans hj hm
    have hlt := h j hjl (Nat.ne_of_lt hj)
    have hgj : l.getD j 0 = l[j] := by
      rw [List.getD_eq_getElem?_getD, List.getElem?_eq_getElem hjl]
      rfl
    simp only [decide_eq_false_iff_not, not_le]
    rw [hmin, ← hgj]
    exact hlt

theorem getD_map_of_lt (f : ℝ → ℝ) (l : List ℝ) (i : ℕ) (hi : i < l.length) :
    (l.map f).getD i 0 = f (l.getD i 0) := by
  have h2 : i < (l.map f).length := by
    rw [List.length_map]
    exact hi
  rw [List.getD_eq_getElem?_getD, List.getElem?_eq_getElem h2,
    Option.getD_some, List.getElem_map, List.getD_eq_getElem?_getD,
    List.getElem?_eq_getElem hi, Option.getD_some]

theorem getD_set_self (l : List ℝ) (i : ℕ) (a : ℝ) (hi : i < l.length) :
    (l.set i a).getD i 0 = a := by
  have h2 : i < (l.set i a).length := by
    rw [List.length_set]
    exact hi
  rw [List.getD_eq_getElem?_getD, List.getElem?_eq_getElem h2,
    Option.getD_some, List.getElem_set_self]

theorem getD_set_ne (l : List ℝ) (i j : ℕ) (a : ℝ) (hne : i ≠ j) :
    (l.set i a).getD j 0 = l.getD j 0 := by
  by_cases hj : j < l.length
  · have h2 : j < (l.set i a).length := by
      rw [List.length_set]
      exact hj
    rw [List.getD_eq_getElem?_getD, List.getElem?_eq_getElem h2,
      Option.getD_some, List.getElem_set_ne hne,
      List.getD_eq_getElem?_getD, List.getElem?_eq_getElem hj,
      Option.getD_some]
  · have h1 : l.length ≤ j := le_of_not_lt hj
    have h2 : (l.set i a).length ≤ j := by
      rw [List.length_set]
      exact h1
    rw [List.getD_eq_getElem?_getD, List.getD_eq_getElem?_getD,
      List.getElem?_eq_none h1, List.getElem?_eq_none h2]

theorem rotatedRows_length (t : ℝ) (xs ys zs : List ℝ) :
    (rotatedRows t xs ys zs).length = 3 := rfl

theorem bbox_rotated_eq (t : ℝ) (xs ys zs : List ℝ) (hx : xs ≠ [])
    (hy : ys ≠ []) (hz : zs ≠ []) :
    compute_axis_aligned_bbox_volume (rotatedRows t xs ys zs)
      = .ok (extentProd (rotatedRows t xs ys zs)) := by
  obtain ⟨x0, xs0, rfl⟩ := List.exists_cons_of_ne_nil hx
  obtain ⟨z0, zs0, rfl⟩ := List.exists_cons_of_ne_nil hz
  unfold compute_axis_aligned_bbox_volume
  rw [if_pos (rotatedRows_length t (x0 :: xs0) ys (z0 :: zs0)),
    if_neg (by simp [rotatedRows, List.isEmpty_iff, hy])]

theorem volumesLoop_eq (xs ys zs : List ℝ) (hx : xs ≠ []) (hy : ys ≠ [])
    (hz : zs ≠ []) (ts : List ℝ) :
    volumesLoop xs ys zs ts
      = .ok (ts.map (fun t => extentProd (rotatedRows t xs ys zs))) := by
  induction ts with
  | nil => rfl
  | cons t ts2 ih =>
    unfold volumesLoop
    rw [bbox_rotated_eq t xs ys zs hx hy hz, ih]
    simp

theorem volumeAtTheta_eq (vertices : List Vertex) (t : ℝ)
    (hv : vertices ≠ []) :
    volumeAtTheta vertices t
      = extentProd (rotatedRows t (vertices.map Vertex.x)
          (vertices.map Vertex.y) (vertices.map Vertex.z)) := by
  unfold volumeAtTheta
  rw [bbox_rotated_eq _ _ _ _ (by simp [hv]) (by simp [hv]) (by simp [hv])]

/-- Core unfolding: under the asserted preconditions and a nonempty vertex
list, the optimizer returns the negated degree value of the theta selected
by the first-argmin of the biased volume list. -/
theorem compute_thor_rotation_eq (vertices : List Vertex) (d b : ℝ) (k : ℕ)
    (hv : vertices ≠ []) (hd : 0 ≤ d) (hk : 1 ≤ k) (ho : k % 2 = 1) :
    compute_thor_rotation_to_obtain_min_bounding_box vertices d k b
      = .ok (-(rad2deg ((sampledThetas d k).getD
          (argminFirst (biasVolumes ((sampledThetas d k).map
            (fun t => extentProd (rotatedRows t (vertices.map Vertex.x)
              (vertices.map Vertex.y) (vertices.map Vertex.z)))) b)) 0))) := by
  unfold compute_thor_rotation_to_obtain_min_bounding_box
  rw [if_neg (by simpa using hd)]
  rw [if_neg (by simp [hk, ho])]
  rw [if_neg (by simpa [List.isEmpty_iff] using hv)]
  simp only [volumesLoop_eq (vertices.map Vertex.x) (vertices.map Vertex.y)
    (vertices.map Vertex.z) (by simp [hv]) (by simp [hv]) (by simp [hv])
    (sampledThetas d k)]

/-- C4 counterexample: with increments = 1 and max_degrees = 45 > 0 the
optimizer evaluates the single angle −deg2rad 45, not 0: np.linspace with
one sample returns its start point −max_rad_change. -/
theorem C4_counterexample :
    sampledThetas 45 1 = [-(deg2rad 45)] ∧ -(deg2rad 45) ≠ 0 ∧
    sampledThetas 45 1 ≠ [0] := by
  have hp : 0 < deg2rad 45 := by
    unfold deg2rad
    positivity
  have hne : -(deg2rad 45) ≠ 0 := ne_of_lt (by linarith)
  refine ⟨sampledThetas_one 45, hne, ?_⟩
  rw [sampledThetas_one 45]
  intro h
  exact hne (List.cons_eq_cons.mp h).1

/-- C4 amended: with increments = 1 the optimizer evaluates exactly one
angle, −max_degrees (the start point of the linspace); in particular with
max_degrees = 0 that single angle is 0 and the optimizer returns 0 for
every nonempty vertex set and every bias. -/
theorem C4_amended_single_increment (d b : ℝ) (v : Vertex) (vs : List Vertex) :
    sampledThetas d 1 = [-(deg2rad d)] ∧
    compute_thor_rotation_to_obtain_min_bounding_box (v :: vs) 0 1 b
      = .ok 0 := by
  refine ⟨sampledThetas_one d, ?_⟩
  have h1 : sampledThetas 0 1 = [(0 : ℝ)] := by
    rw [sampledThetas_one, deg2rad_zero, neg_zero]
  rw [compute_thor_rotation_eq (v :: vs) 0 b 1 (by simp) (le_refl 0)
    (le_refl 1) rfl, h1]
  simp [biasVolumes, argminFirst_singleton, rad2deg_zero]

/-- C10: with the empty vertex sequence the optimizer raises for every
max_deg_change ≥ 0 and odd increments ≥ 1 (no angle is returned); with any
nonempty vertex sequence the rotated array always has exactly 3 rows (the
internal assertion holds) and the function returns a value. -/
theorem C10_rotation_totality (d b : ℝ) (k : ℕ) (v : Vertex)
    (vs : List Vertex) (hd : 0 ≤ d) (hk : 1 ≤ k) (ho : k % 2 = 1) :
    (∃ msg, compute_thor_rotation_to_obtain_min_bounding_box [] d k b
        = .error msg) ∧
    (∀ t : ℝ, ∀ xs ys zs : List ℝ, (rotatedRows t xs ys zs).length = 3) ∧
    (∃ r, compute_thor_rotation_to_obtain_min_bounding_box (v :: vs) d k b
        = .ok r) := by
  refine ⟨⟨"ValueError: axes do not match array", ?_⟩,
    fun t xs ys zs => rfl,
    ⟨_, compute_thor_rotation_eq (v :: vs) d b k (by simp) hd hk ho⟩⟩
  unfold compute_thor_rotation_to_obtain_min_bounding_box
  rw [if_neg (by simpa using hd), if_neg (by simp [hk, ho]),
    if_pos (show ([] : List Vertex).isEmpty = true from rfl)]

/-- Witness for C10_rotation_totality at a concrete input. -/
theorem C10_rotation_totality_witness :
    (0 : ℝ) ≤ 0 ∧ 1 ≤ 1 ∧ 1 % 2 = 1 ∧
    ((∃ msg, compute_thor_rotation_to_obtain_min_bounding_box [] 0 1 0
        = .error msg) ∧
      (∀ t : ℝ, ∀ xs ys zs : List ℝ, (rotatedRows t xs ys zs).length = 3) ∧
      (∃ r, compute_thor_rotation_to_obtain_min_bounding_box
        [⟨0, 0, 0⟩] 0 1 0 = .ok r)) :=
  ⟨le_refl 0, le_refl 1, rfl,
   C10_rotation_totality 0 0 1 ⟨0, 0, 0⟩ [] (le_refl 0) (le_refl 1) rfl⟩

/-- C5 counterexample: with the odd value increments = 1 and
max_degrees = 45 the sampled grid (in degrees) is [−45], its middle sample
is −45 rather than 0, and the optimizer returns 45, which is not one of the
sampled grid points. -/
theorem C5_counterexample :
    compute_thor_rotation_to_obtain_min_bounding_box ptsSingle 45 1 (1 / 100)
      = .ok 45 ∧
    (sampledThetas 45 1).map rad2deg = [(-45 : ℝ)] ∧
    (45 : ℝ) ∉ [(-45 : ℝ)] := by
  have h1 : sampledThetas 45 1 = [-(deg2rad 45)] := sampledThetas_one 45
  refine ⟨?_, ?_, by norm_num⟩
  · rw [compute_thor_rotation_eq ptsSingle 45 (1 / 100) 1
      (by simp [ptsSingle]) (by norm_num) (le_refl 1) rfl, h1]
    simp [biasVolumes, argminFirst_singleton, rad2deg_neg, rad2deg_deg2rad]
  · rw [h1]
    simp [rad2deg_neg, rad2deg_deg2rad]

/-- C5 amended: for odd increments k ≥ 3 (the degenerate k = 1 case instead
samples only −max_degrees and returns +max_degrees, which is not a grid
point), the optimizer samples exactly k angles uniformly over
[−max_rad, +max_rad] inclusive with the middle sample exactly 0, returns the
negation of the sampled angle selected by the first-argmin of the biased
volumes, and the returned value is itself one of the k sampled grid points
(in degrees) by symmetry of the grid. -/
theorem C5_amended_grid_selection (vertices : List Vertex) (d b : ℝ) (k : ℕ)
    (hv : vertices ≠ []) (hd : 0 ≤ d) (hk : 3 ≤ k) (ho : k % 2 = 1) :
    (sampledThetas d k).length = k ∧
    (∀ i, i < k → (sampledThetas d k).getD i 0
        = -(deg2rad d) + i * (2 * deg2rad d / ((k : ℝ) - 1))) ∧
    (sampledThetas d k).getD (k / 2) 0 = 0 ∧
    (∃ j, j < k ∧
      compute_thor_rotation_to_obtain_min_bounding_box vertices d k b
        = .ok (-(rad2deg ((sampledThetas d k).getD j 0))) ∧
      -(rad2deg ((sampledThetas d k).getD j 0))
        ∈ (sampledThetas d k).map rad2deg) := by
  have hk1 : ((k : ℝ) - 1) ≠ 0 := by
    have h3 : (3 : ℝ) ≤ (k : ℝ) := by exact_mod_cast hk
    intro h0
    linarith
  refine ⟨sampledThetas_length d k,
    fun i hi => sampledThetas_getD d k i (by omega) hi,
    sampledThetas_middle d k hk ho, ?_⟩
  set bv := biasVolumes ((sampledThetas d k).map
    (fun t => extentProd (rotatedRows t (vertices.map Vertex.x)
      (vertices.map Vertex.y) (vertices.map Vertex.z)))) b with hbvdef
  have hlen : bv.length = k := by
    rw [hbvdef]
    unfold biasVolumes
    rw [List.length_set, List.length_map, sampledThetas_length]
  have hbvne : bv ≠ [] := by
    rw [← List.length_pos_iff_ne_nil, hlen]
    omega
  have hj : argminFirst bv < k := by
    rw [← hlen]
    exact argminFirst_lt_length bv hbvne
  refine ⟨argminFirst bv, hj, ?_, ?_⟩
  · exact compute_thor_rotation_eq vertices d b k hv hd (by omega) ho
  · have hsub : k - 1 - argminFirst bv < k := by omega
    have hcast : ((k - 1 - argminFirst bv : ℕ) : ℝ)
        = (k : ℝ) - 1 - (argminFirst bv : ℝ) := by
      have hc1 : ((k - 1 - argminFirst bv : ℕ) : ℝ)
          = ((k - 1 : ℕ) : ℝ) - ((argminFirst bv : ℕ) : ℝ) :=
        Nat.cast_sub (by omega)
      have hc2 : ((k - 1 : ℕ) : ℝ) = (k : ℝ) - 1 := by
        have := Nat.cast_sub (show 1 ≤ k by omega) (R := ℝ)
        simpa using this
      rw [hc1, hc2]
    have hneg : -((sampledThetas d k).getD (argminFirst bv) 0)
        = (sampledThetas d k).getD (k - 1 - argminFirst bv) 0 := by
      rw [sampledThetas_getD d k _ (by omega) hj,
        sampledThetas_getD d k _ (by omega) hsub, hcast]
      field_simp
      ring
    rw [← rad2deg_neg, hneg]
    apply List.mem_map_of_mem
    have hlt : k - 1 - argminFirst bv < (sampledThetas d k).length := by
      rw [sampledThetas_length]
      exact hsub
    rw [List.getD_eq_getElem?_getD, List.getElem?_eq_getElem hlt,
      Option.getD_some]
    exact List.getElem_mem hlt

/-- Witness for C5_amended_grid_selection at a concrete input. -/
theorem C5_amended_grid_selection_witness :
    ptsSingle ≠ [] ∧ (0 : ℝ) ≤ 45 ∧ 3 ≤ 3 ∧ 3 % 2 = 1 ∧
    ((sampledThetas 45 3).length = 3 ∧
      (∀ i, i < 3 → (sampledThetas 45 3).getD i 0
          = -(deg2rad 45) + i * (2 * deg2rad 45 / ((3 : ℝ) - 1))) ∧
      (sampledThetas 45 3).getD (3 / 2) 0 = 0 ∧
      (∃ j, j < 3 ∧
        compute_thor_rotation_to_obtain_min_bounding_box ptsSingle 45 3 (1 / 100)
          = .ok (-(rad2deg ((sampledThetas 45 3).getD j 0))) ∧
        -(rad2deg ((sampledThetas 45 3).getD j 0))
          ∈ (sampledThetas 45 3).map rad2deg)) :=
  ⟨by simp [ptsSingle], by norm_num, by norm_num, by norm_num,
   C5_amended_grid_selection ptsSingle 45 (1 / 100) 3 (by simp [ptsSingle])
     (by norm_num) (by norm_num) (by norm_num)⟩

/-- C6 amended: for odd increments k ≥ 3 the candidate whose volume is
rescaled by (1 − bias) is the middle, zero-angle candidate, and whenever
every other candidate's unbiased volume strictly exceeds
(zero-angle volume) · (1 − bias) — i.e. the unbiased minimum is within the
bias fraction of the zero-angle volume — the optimizer returns 0.  (With
increments = 1 and max_degrees > 0 the rescaled candidate is the
−max_degrees candidate instead, and 0 is not returned.) -/
theorem C6_amended_bias_selection (vertices : List Vertex) (d b : ℝ) (k : ℕ)
    (hv : vertices ≠ []) (hd : 0 ≤ d) (hk : 3 ≤ k) (ho : k % 2 = 1)
    (hbias : ∀ i, i < k → i ≠ k / 2 →
      candidateVolume vertices d k (k / 2) * (1 - b)
        < candidateVolume vertices d k i) :
    biasedCandidateTheta d k = 0 ∧
    compute_thor_rotation_to_obtain_min_bounding_box vertices d k b
      = .ok 0 := by
  have hmidth : (sampledThetas d k).getD (k / 2) 0 = 0 :=
    sampledThetas_middle d k hk ho
  refine ⟨hmidth, ?_⟩
  rw [compute_thor_rotation_eq vertices d b k hv hd (by omega) ho]
  set vols := (sampledThetas d k).map
    (fun t => extentProd (rotatedRows t (vertices.map Vertex.x)
      (vertices.map Vertex.y) (vertices.map Vertex.z))) with hvolsdef
  have hvlen : vols.length = k := by
    rw [hvolsdef, List.length_map, sampledThetas_length]
  have hvget : ∀ i, i < k → vols.getD i 0 = candidateVolume vertices d k i := by
    intro i hi
    have hlt2 : i < (sampledThetas d k).length := by
      rw [sampledThetas_length]
      exact hi
    rw [hvolsdef, getD_map_of_lt _ _ _ hlt2]
    unfold candidateVolume
    rw [volumeAtTheta_eq vertices _ hv]
  have hmid : k / 2 < vols.length := by omega
  have hblen : (biasVolumes vols b).length = k := by
    unfold biasVolumes
    rw [List.length_set]
    exact hvlen
  have hbmid : (biasVolumes vols b).getD (k / 2) 0
      = candidateVolume vertices d k (k / 2) * (1 - b) := by
    unfold biasVolumes
    rw [hvlen, getD_set_self _ _ _ hmid, hvget (k / 2) (by omega)]
  have hbother : ∀ i, i < k → i ≠ k / 2 →
      (biasVolumes vols b).getD i 0 = candidateVolume vertices d k i := by
    intro i hi hne
    unfold biasVolumes
    rw [hvlen, getD_set_ne _ _ _ _ (Ne.symm hne)]
    exact hvget i hi
  have hargmin : argminFirst (biasVolumes vols b) = k / 2 := by
    have hmlt : k / 2 < (biasVolumes vols b).length := by
      rw [hblen]
      omega
    apply argminFirst_eq_of_strict _ _ hmlt
    intro i hil hne
    rw [hblen] at hil
    rw [hbmid, hbother i hil hne]
    exact hbias i hil hne
  rw [hargmin, hmidth, rad2deg_zero, neg_zero]

/-- Witness for C6_amended_bias_selection at a concrete input: the unit
cube sampled at max_degrees = 0, where all three candidates have the same
volume 1 and the bias makes the middle candidate win. -/
theorem C6_amended_bias_selection_witness :
    ptsCube ≠ [] ∧ (0 : ℝ) ≤ 0 ∧ 3 ≤ 3 ∧ 3 % 2 = 1 ∧
    (∀ i, i < 3 → i ≠ 3 / 2 →
      candidateVolume ptsCube 0 3 (3 / 2) * (1 - 1 / 2)
        < candidateVolume ptsCube 0 3 i) ∧
    (biasedCandidateTheta 0 3 = 0 ∧
      compute_thor_rotation_to_obtain_min_bounding_box ptsCube 0 3 (1 / 2)
        = .ok 0) := by
  have hcv : ∀ i, i < 3 → candidateVolume ptsCube 0 3 i = 1 := by
    intro i hi
    unfold candidateVolume
    rw [sampledThetas_getD 0 3 i (by norm_num) hi, deg2rad_zero]
    have harg : -(0 : ℝ) + (i : ℝ) * (2 * 0 / (((3 : ℕ) : ℝ) - 1)) = 0 := by
      norm_num
    rw [harg, volumeAtTheta_eq ptsCube 0 (by simp [ptsCube])]
    simp [ptsCube, rotatedRows, extentProd, rowMax, rowMin]
  have hb : ∀ i, i < 3 → i ≠ 3 / 2 →
      candidateVolume ptsCube 0 3 (3 / 2) * (1 - 1 / 2)
        < candidateVolume ptsCube 0 3 i := by
    intro i hi hne
    rw [hcv i hi, hcv (3 / 2) (by norm_num)]
    norm_num
  exact ⟨by simp [ptsCube], le_refl 0, le_refl 3, rfl, hb,
    C6_amended_bias_selection ptsCube 0 (1 / 2) 3 (by simp [ptsCube])
      (le_refl 0) (le_refl 3) rfl hb⟩

/-- C6 counterexample: with increments = 1 and max_degrees = 45 the rescaled
candidate is the −45° candidate, not the zero-angle one; and on the vertex
set pts2 — whose volume at the single sampled angle −45° (≈ 0.414302)
exceeds the zero-angle volume (0.414) by less than the bias fraction 1/100
of it — the optimizer returns 45, not 0, contradicting both parts of the
claim. -/
theorem C6_counterexample :
    biasedCandidateTheta 45 1 = -(deg2rad 45) ∧
    biasedCandidateTheta 45 1 ≠ 0 ∧
    volumeAtTheta pts2 0 = 207 / 500 ∧
    volumeAtTheta pts2 (-(deg2rad 45)) = 207151 / 500000 ∧
    volumeAtTheta pts2 (-(deg2rad 45)) - volumeAtTheta pts2 0
      < (1 / 100) * volumeAtTheta pts2 0 ∧
    0 ≤ volumeAtTheta pts2 (-(deg2rad 45)) - volumeAtTheta pts2 0 ∧
    compute_thor_rotation_to_obtain_min_bounding_box pts2 45 1 (1 / 100)
      = .ok 45 ∧
    (45 : ℝ) ≠ 0 := by
  have h45 : deg2rad 45 = Real.pi / 4 := by
    unfold deg2rad
    ring
  have hp : 0 < deg2rad 45 := by
    unfold deg2rad
    positivity
  have hv0 : volumeAtTheta pts2 0 = 207 / 500 := by
    rw [volumeAtTheta_eq pts2 0 (by simp [pts2])]
    simp [pts2, rotatedRows, extentProd, rowMax, rowMin]
    norm_num
  have hv45 : volumeAtTheta pts2 (-(deg2rad 45)) = 207151 / 500000 := by
    have hs2 : Real.sqrt 2 * Real.sqrt 2 = 2 := Real.mul_self_sqrt (by norm_num)
    rw [volumeAtTheta_eq pts2 _ (by simp [pts2]), h45]
    simp only [pts2, rotatedRows, List.map_cons, List.map_nil,
      List.zip_cons_cons, Real.cos_neg, Real.sin_neg,
      Real.cos_pi_div_four, Real.sin_pi_div_four, extentProd, rowMax, rowMin]
    have hz1 : Real.sqrt 2 / 2 * 0 - -(Real.sqrt 2 / 2) * 0 = 0 := by ring
    have hz2 : -(Real.sqrt 2 / 2) * 0 + Real.sqrt 2 / 2 * 0 = 0 := by ring
    have hA : Real.sqrt 2 / 2 * 1 - -(Real.sqrt 2 / 2) * (207 / 500)
        = Real.sqrt 2 * (707 / 1000) := by ring
    have hB : -(Real.sqrt 2 / 2) * 1 + Real.sqrt 2 / 2 * (207 / 500)
        = -(Real.sqrt 2 * (293 / 1000)) := by ring
    rw [hz1, hz2, hA, hB]
    have hApos : (0 : ℝ) ≤ Real.sqrt 2 * (707 / 1000) := by positivity
    have hBneg : -(Real.sqrt 2 * (293 / 1000)) ≤ (0 : ℝ) :=
      neg_nonpos.mpr (by positivity)
    rw [max_eq_right hApos, min_eq_left hApos, max_eq_left hBneg,
      min_eq_right hBneg, max_eq_right (zero_le_one (α := ℝ)),
      min_eq_left (zero_le_one (α := ℝ))]
    simp only [List.foldl_cons, List.foldl_nil]
    linear_combination (207151 / 1000000 : ℝ) * hs2
  have hbct : biasedCandidateTheta 45 1 = -(deg2rad 45) := by
    unfold biasedCandidateTheta
    rw [sampledThetas_one, show (1 : ℕ) / 2 = 0 by norm_num,
      List.getD_cons_zero]
  refine ⟨hbct, ?_, hv0, hv45, ?_, ?_, ?_, by norm_num⟩
  · rw [hbct]
    exact ne_of_lt (by linarith)
  · rw [hv0, hv45]
    norm_num
  · rw [hv0, hv45]
    norm_num
  · rw [compute_thor_rotation_eq pts2 45 (1 / 100) 1 (by simp [pts2])
      (by norm_num) (le_refl 1) rfl, sampledThetas_one]
    simp [biasVolumes, argminFirst_singleton, rad2deg_neg, rad2deg_deg2rad]

end Objathor
